import Mathlib

set_option maxHeartbeats 1000000

/-!
Shallow embedding of src/hh.py: the vacancy record model (class
`Vacancies`), the JSON-file store (`JSONSaver.add_vacancy`,
`JSONSaver.get_vacancies`, `JSONSaver.delete_vacancy`, with the file
contents made explicit as a list of entries), and the ranking pipeline
nested inside `user_interaction` (`filter_vacancies`,
`get_vacancies_by_salary`, `sort_vacancies`, `get_top_vacancies`).

Python scalar values flowing through these records are embedded as
`PyVal`: ints, floats, strings, and None.  A Python float is represented
by its exact rational value; the program only ever compares floats (it
never does float arithmetic), and CPython compares ints and floats
exactly, so the rational embedding is faithful for every comparison the
code performs.  Python exceptions are embedded with `Except PyError`.
String lowering (`str.lower`) is modelled by `pyLowerStr`, which agrees
with Python on the ASCII range.
-/

/-- Python scalar values occurring in hh.py's vacancy records. -/
inductive PyVal where
  | int (n : Int)
  | float (q : ℚ)
  | str (s : String)
  | none
  deriving DecidableEq

/-- Python exceptions raised by the embedded code. -/
inductive PyError where
  | valueError (msg : String)
  | typeError
  | attributeError
  deriving DecidableEq

/-- Python `==` on the embedded values: exact on strings and None, but
int and float compare by numeric value (CPython coerces exactly). -/
def pyEqB : PyVal → PyVal → Bool
  | .int a, .int b => a == b
  | .int a, .float q => ((a : ℚ)) == q
  | .float q, .int b => q == ((b : ℚ))
  | .float a, .float b => a == b
  | .str a, .str b => a == b
  | .none, .none => true
  | _, _ => false

/-- Python `<` on the embedded values: defined within numbers and within
strings, raises TypeError across kinds (and on None), as in Python 3. -/
def pyLt : PyVal → PyVal → Except PyError Bool
  | .int a, .int b => Except.ok (decide (a < b))
  | .int a, .float q => Except.ok (decide ((a : ℚ) < q))
  | .float q, .int b => Except.ok (decide (q < (b : ℚ)))
  | .float a, .float b => Except.ok (decide (a < b))
  | .str a, .str b => Except.ok (decide (a < b))
  | _, _ => Except.error PyError.typeError

/-- Test for `isinstance(x, (int, float))`. -/
def pyIsNumber : PyVal → Bool
  | .int _ => true
  | .float _ => true
  | _ => false

/-- Test for `x < 0` on numbers (false on non-numbers). -/
def pyIsNeg : PyVal → Bool
  | .int n => decide (n < 0)
  | .float q => decide (q < 0)
  | _ => false

/-- Test for `x is None`. -/
def pyIsNone : PyVal → Bool
  | .none => true
  | _ => false

/-- Test for being a Python str. -/
def pyIsStr : PyVal → Bool
  | .str _ => true
  | _ => false

/-- Underlying text of a string value (junk default on other values; only
used under a `pyIsStr` hypothesis). -/
def pyStrVal : PyVal → String
  | .str s => s
  | _ => ""

/-- Numeric value of an int or float (junk default otherwise; only used
under a `pyIsNumber` hypothesis). -/
def pyNumVal : PyVal → ℚ
  | .int n => (n : ℚ)
  | .float q => q
  | _ => 0

/-- One serialized store entry: the dict written by
`JSONSaver.add_vacancy` with keys name, link, salary, description, id. -/
structure Entry where
  name : PyVal
  link : PyVal
  salary : PyVal
  description : PyVal
  id : PyVal
  deriving DecidableEq

/-- Python `entry.get(key)` on a serialized entry: the five known keys
map to their fields, any other key yields None. -/
def pyGetField (e : Entry) (key : String) : PyVal :=
  if key = "name" then e.name
  else if key = "link" then e.link
  else if key = "salary" then e.salary
  else if key = "description" then e.description
  else if key = "id" then e.id
  else PyVal.none

/-- The validated record built by `Vacancies.__init__`. -/
structure Vacancies where
  name : PyVal
  link : PyVal
  salary : PyVal
  description : PyVal
  id : PyVal
  deriving DecidableEq

/-- The sentinel returned by `validation_data` for a missing salary:
the string "Зарплата не указана". -/
def salaryNotSpecified : PyVal := PyVal.str "Зарплата не указана"

/-- `Vacancies.validation_data`: None or "" become the sentinel; a
non-number raises ValueError; a negative number raises ValueError;
otherwise the salary is returned unchanged. -/
def validation_data (salary : PyVal) : Except PyError PyVal :=
  if pyIsNone salary || pyEqB salary (PyVal.str "") then Except.ok salaryNotSpecified
  else if !(pyIsNumber salary) then
    Except.error (PyError.valueError "Зарплата должна быть числом")
  else if pyIsNeg salary then
    Except.error (PyError.valueError "Зарплата не может быть отрицательной")
  else Except.ok salary

/-- `Vacancies.__init__`: stores the fields, passing the salary through
`validation_data`. -/
def mkVacancies (name link salary description id : PyVal) : Except PyError Vacancies :=
  match validation_data salary with
  | Except.error e => Except.error e
  | Except.ok s => Except.ok ⟨name, link, s, description, id⟩

/-- The dict `JSONSaver.add_vacancy` writes for a record. -/
def serializeVacancy (v : Vacancies) : Entry :=
  ⟨v.name, v.link, v.salary, v.description, v.id⟩

/-- A raw source item as consumed by `Vacancies.cast_to_object_list`:
each field is `Option.none` when the key is absent from the dict. -/
structure RawItem where
  name : Option PyVal
  link : Option PyVal
  salary : Option PyVal
  description : Option PyVal
  id : Option PyVal

/-- The body of the loop in `Vacancies.cast_to_object_list`:
`cls(name=v.get("name"), link=v.get("link"), salary=v.get("salary", 0),
description=v.get("description", ""), id=v.get("id"))`. -/
def cast_item (item : RawItem) : Except PyError Vacancies :=
  mkVacancies (item.name.getD PyVal.none) (item.link.getD PyVal.none)
    (item.salary.getD (PyVal.int 0)) (item.description.getD (PyVal.str ""))
    (item.id.getD PyVal.none)

/-- `Vacancies.cast_to_object_list`, the first raised ValueError
propagating. -/
def cast_to_object_list : List RawItem → Except PyError (List Vacancies)
  | [] => Except.ok []
  | item :: rest =>
    match cast_item item with
    | Except.error e => Except.error e
    | Except.ok v =>
      match cast_to_object_list rest with
      | Except.error e => Except.error e
      | Except.ok vs => Except.ok (v :: vs)

/-- `JSONSaver.add_vacancy`: appends the serialized record to the stored
sequence. -/
def add_vacancy (store : List Entry) (v : Vacancies) : List Entry :=
  store ++ [serializeVacancy v]

/-- The inner criteria loop of `JSONSaver.get_vacancies`: all keys must
match under Python `==`, with early exit on the first mismatch. -/
def matchesCriteria (v : Entry) : List (String × PyVal) → Bool
  | [] => true
  | kv :: rest => if pyEqB (pyGetField v kv.1) kv.2 then matchesCriteria v rest else false

/-- `JSONSaver.get_vacancies`: collects the matching entries in stored
order (result.append inside a forward loop). -/
def get_vacancies (store : List Entry) (criteria : List (String × PyVal)) : List Entry :=
  store.foldl (fun result v => if matchesCriteria v criteria then result ++ [v] else result) []

/-- `JSONSaver.delete_vacancy`: keeps the entries whose id differs from
the given identifier (not_suitable.append inside a forward loop). -/
def delete_vacancy (store : List Entry) (vacancy_id : PyVal) : List Entry :=
  store.foldl
    (fun notSuitable v =>
      if pyEqB (pyGetField v "id") vacancy_id then notSuitable else notSuitable ++ [v]) []

/-- Boolean list-le test: the first list is an initial segment of the
second. -/
def charsLead : List Char → List Char → Bool
  | [], _ => true
  | _ :: _, [] => false
  | a :: ta, b :: tb => a == b && charsLead ta tb

/-- Boolean substring test on char lists. -/
def charsHasSub (needle : List Char) : List Char → Bool
  | [] => charsLead needle []
  | c :: rest => charsLead needle (c :: rest) || charsHasSub needle rest

/-- Python `needle in hay` on strings (substring containment). -/
def strHasSub (hay needle : String) : Bool := charsHasSub needle.data hay.data

/-- ASCII lowering of one character. -/
def asciiLowerChar (c : Char) : Char :=
  if 65 ≤ c.toNat && c.toNat ≤ 90 then Char.ofNat (c.toNat + 32) else c

/-- Python `s.lower()`, modelled on the ASCII range. -/
def pyLowerStr (s : String) : String := String.mk (s.data.map asciiLowerChar)

/-- The per-entry test inside `filter_vacancies`:
`any(word.lower() in vacancy.get("description", "").lower() for word in
filter_words)`.  `any` over an empty keyword list is False without
touching the description; with keywords present, `.lower()` on a
non-string description raises AttributeError. -/
def keyword_match (v : Entry) : List String → Except PyError Bool
  | [] => Except.ok false
  | w :: ws =>
    match v.description with
    | PyVal.str s =>
      Except.ok ((w :: ws).any (fun word => strHasSub (pyLowerStr s) (pyLowerStr word)))
    | _ => Except.error PyError.attributeError

/-- `filter_vacancies` from `user_interaction`: keeps the entries whose
description contains some keyword, case-insensitively. -/
def filter_vacancies : List Entry → List String → Except PyError (List Entry)
  | [], _ => Except.ok []
  | v :: rest, ws =>
    match keyword_match v ws with
    | Except.error e => Except.error e
    | Except.ok b =>
      match filter_vacancies rest ws with
      | Except.error e => Except.error e
      | Except.ok tail => Except.ok (if b then v :: tail else tail)

/-- Value of a non-empty all-digit char list (None otherwise). -/
def digitsValAux : List Char → Nat → Option Nat
  | [], acc => Option.some acc
  | c :: cs, acc =>
    if c.isDigit then digitsValAux cs (acc * 10 + (c.toNat - 48)) else Option.none

/-- Value of a non-empty all-digit char list (None if empty or not all
digits). -/
def digitsVal : List Char → Option Nat
  | [] => Option.none
  | c :: cs => digitsValAux (c :: cs) 0

/-- Whitespace recognized by Python's int() stripping. -/
def isSpaceChar (c : Char) : Bool := c == ' ' || c == '\t' || c == '\n' || c == '\r'

/-- Strip whitespace from both ends of a char list. -/
def trimChars (cs : List Char) : List Char :=
  ((cs.dropWhile isSpaceChar).reverse.dropWhile isSpaceChar).reverse

/-- Python `int(s)` on a plain decimal literal: surrounding whitespace
stripped, optional sign, at least one digit. -/
def pyParseInt (s : String) : Option Int :=
  match trimChars s.data with
  | '-' :: rest => (digitsVal rest).map (fun n => -(n : Int))
  | '+' :: rest => (digitsVal rest).map (fun n => (n : Int))
  | cs => (digitsVal cs).map (fun n => (n : Int))

/-- Python `s.split('-')` on the character list. -/
def splitDashChars : List Char → List (List Char)
  | [] => [[]]
  | c :: rest =>
    if c = '-' then [] :: splitDashChars rest
    else
      match splitDashChars rest with
      | [] => [[c]]
      | p :: ps => (c :: p) :: ps

/-- `min_salary, max_salary = map(int, salary_range.split('-'))`: exactly
two dash-separated parts, each parsing as an int (None on any failure;
the source distinguishes unpack errors from int() errors, but both are
uncaught ValueErrors). -/
def pyParseRange (s : String) : Option (Int × Int) :=
  match splitDashChars s.data with
  | [a, b] =>
    match pyParseInt (String.mk a), pyParseInt (String.mk b) with
    | Option.some mn, Option.some mx => Option.some (mn, mx)
    | _, _ => Option.none
  | _ => Option.none

/-- The per-entry test inside `get_vacancies_by_salary`:
`isinstance(salary, int) and min_salary <= salary <= max_salary`. -/
def saInRange (v : Entry) (mn mx : Int) : Bool :=
  match pyGetField v "salary" with
  | PyVal.int s => decide (mn ≤ s) && decide (s ≤ mx)
  | _ => false

/-- `get_vacancies_by_salary` from `user_interaction`: an empty range
string is falsy and means no filtering; otherwise the range is parsed
and entries are kept iff their salary is an int within it. -/
def get_vacancies_by_salary (vacancies : List Entry) (salary_range : String) :
    Except PyError (List Entry) :=
  if salary_range = "" then Except.ok vacancies
  else
    match pyParseRange salary_range with
    | Option.some (mn, mx) =>
      Except.ok (vacancies.foldl
        (fun ranged v => if saInRange v mn mx then ranged ++ [v] else ranged) [])
    | Option.none => Except.error (PyError.valueError "invalid salary range")

/-- Stable descending insertion into an already-sorted list, comparing
salaries with Python `<` (which raises TypeError across int/str). -/
def insertDesc (x : Entry) : List Entry → Except PyError (List Entry)
  | [] => Except.ok [x]
  | y :: ys =>
    match pyLt (pyGetField y "salary") (pyGetField x "salary") with
    | Except.error e => Except.error e
    | Except.ok true => Except.ok (x :: y :: ys)
    | Except.ok false =>
      match insertDesc x ys with
      | Except.error e => Except.error e
      | Except.ok rest => Except.ok (y :: rest)

/-- Left-to-right insertion of every entry. -/
def sortInsertAll (acc : List Entry) : List Entry → Except PyError (List Entry)
  | [] => Except.ok acc
  | v :: rest =>
    match insertDesc v acc with
    | Except.error e => Except.error e
    | Except.ok acc2 => sortInsertAll acc2 rest

/-- `sort_vacancies` from `user_interaction`:
`sorted(vacancies, key=lambda v: v.get("salary", 0), reverse=True)` —
a stable descending comparison sort that, like CPython, raises TypeError
as soon as int and str salary keys must be compared. -/
def sort_vacancies (vacancies : List Entry) : Except PyError (List Entry) :=
  sortInsertAll [] vacancies

/-- Python slice `l[:n]` for an int `n` (negative n counts from the
end, clamped at zero). -/
def pySlice (l : List Entry) (n : Int) : List Entry :=
  if 0 ≤ n then l.take n.toNat else l.take ((l.length : Int) + n).toNat

/-- `get_top_vacancies` from `user_interaction`: `vacancies[:top_n]`,
with no validation of the count. -/
def get_top_vacancies (vacancies : List Entry) (top_n : Int) : List Entry :=
  pySlice vacancies top_n

/-- Claimed behaviour of `get_top_vacancies` following the spec's words
(n must be a positive integer, ValidationError otherwise), stated only
to compare against the source's `get_top_vacancies`. -/
def top_n_claimed (vacancies : List Entry) (n : Int) : Except PyError (List Entry) :=
  if n ≤ 0 then
    Except.error (PyError.valueError "Количество вакансий должно быть положительным.")
  else Except.ok (pySlice vacancies n)

/-- Claimed keep-condition of the salary-range filter following the
spec's words (salary is a numeric value with min ≤ salary ≤ max), stated
only to compare against the source's `get_vacancies_by_salary`. -/
def rangeKeepClaimed (v : Entry) (mn mx : Int) : Bool :=
  pyIsNumber (pyGetField v "salary")
    && decide ((mn : ℚ) ≤ pyNumVal (pyGetField v "salary"))
    && decide (pyNumVal (pyGetField v "salary") ≤ (mx : ℚ))

/-- A store entry with the given name, salary, description and id. -/
def sampleEntry (nm : String) (sal : PyVal) (desc : String) (i : PyVal) : Entry :=
  ⟨PyVal.str nm, PyVal.str "https://hh.ru/vacancy", sal, PyVal.str desc, i⟩

def entPython : Entry := sampleEntry "v" (PyVal.int 1) "Python developer" (PyVal.str "0")

def entS1 : Entry := sampleEntry "a" (PyVal.int 50000) "d1" (PyVal.str "1")

def entSU : Entry := sampleEntry "b" salaryNotSpecified "d2" (PyVal.str "2")

def entS3 : Entry := sampleEntry "c" (PyVal.int 90000) "d3" (PyVal.str "3")

def entS4 : Entry := sampleEntry "e" (PyVal.int 50000) "d4" (PyVal.str "4")

def entFloatSal : Entry := sampleEntry "f" (PyVal.float 120000) "df" (PyVal.str "9")

def entB1 : Entry := sampleEntry "b1" (PyVal.int 100000) "x" (PyVal.str "1")

def entB2 : Entry := sampleEntry "b2" (PyVal.int 150000) "x" (PyVal.str "2")

def entB3 : Entry := sampleEntry "b3" (PyVal.int 99999) "x" (PyVal.str "3")

def entB4 : Entry := sampleEntry "b4" (PyVal.int 150001) "x" (PyVal.str "4")

def entB5 : Entry := sampleEntry "b5" salaryNotSpecified "x" (PyVal.str "5")

def entDup : Entry := sampleEntry "old" (PyVal.int 5) "x" (PyVal.str "1")

def recDup : Vacancies :=
  ⟨PyVal.str "Python Developer", PyVal.str "https://hh.ru/vacancy/1", PyVal.int 100000,
    PyVal.str "d", PyVal.str "1"⟩

def recFresh : Vacancies :=
  ⟨PyVal.str "New", PyVal.str "https://hh.ru/vacancy/7", PyVal.int 1,
    PyVal.str "d", PyVal.str "7"⟩

def entIntSal : Entry := sampleEntry "i" (PyVal.int 100000) "x" (PyVal.str "1")

def rawNoSalaryNoDescr : RawItem :=
  ⟨Option.some (PyVal.str "n"), Option.some (PyVal.str "l"), Option.none, Option.none,
    Option.none⟩

/-! ## Helper lemmas -/

theorem foldl_push_filter {α : Type} (p : α → Bool) (l : List α) :
    ∀ acc, l.foldl (fun r v => if p v then r ++ [v] else r) acc = acc ++ l.filter p := by
  induction l with
  | nil => intro acc; simp
  | cons x xs ih =>
    intro acc
    by_cases h : p x <;> simp [List.foldl_cons, h, ih, List.filter_cons]

theorem matchesCriteria_eq_all (v : Entry) (criteria : List (String × PyVal)) :
    matchesCriteria v criteria =
      criteria.all (fun kv => pyEqB (pyGetField v kv.1) kv.2) := by
  induction criteria with
  | nil => rfl
  | cons kv rest ih =>
    cases h : pyEqB (pyGetField v kv.1) kv.2 <;> simp [matchesCriteria, h, ih]

theorem pyEqB_refl (v : PyVal) : pyEqB v v = true := by
  cases v <;> simp [pyEqB]

theorem get_vacancies_eq_filter (store : List Entry) (criteria : List (String × PyVal)) :
    get_vacancies store criteria = store.filter (fun v => matchesCriteria v criteria) := by
  simp only [get_vacancies]
  simpa using foldl_push_filter (fun v => matchesCriteria v criteria) store []

theorem delete_vacancy_eq_filter (store : List Entry) (vid : PyVal) :
    delete_vacancy store vid =
      store.filter (fun v => !(pyEqB (pyGetField v "id") vid)) := by
  have h : (fun (r : List Entry) (v : Entry) =>
        if pyEqB (pyGetField v "id") vid then r else r ++ [v])
      = fun r v => if (!(pyEqB (pyGetField v "id") vid)) then r ++ [v] else r := by
    funext r v
    cases hb : pyEqB (pyGetField v "id") vid <;> simp [hb]
  simp only [delete_vacancy, h]
  simpa using foldl_push_filter (fun v => !(pyEqB (pyGetField v "id") vid)) store []

theorem filter_vacancies_nil_words (l : List Entry) :
    filter_vacancies l [] = Except.ok [] := by
  induction l with
  | nil => rfl
  | cons v vs ih => simp [filter_vacancies, keyword_match, ih]

theorem filter_vacancies_cons_sem (w : String) (ws : List String) (l : List Entry)
    (h : ∀ e ∈ l, pyIsStr e.description = true) :
    filter_vacancies l (w :: ws) = Except.ok (l.filter (fun e =>
      (w :: ws).any (fun word =>
        strHasSub (pyLowerStr (pyStrVal e.description)) (pyLowerStr word)))) := by
  induction l with
  | nil => rfl
  | cons v vs ih =>
    have hv : pyIsStr v.description = true := h v (by simp)
    have hrest := ih (fun e he => h e (by simp [he]))
    cases hd : v.description with
    | str s =>
      rw [List.filter_cons]
      simp only [filter_vacancies, keyword_match, hd, hrest, pyStrVal]
    | int n => rw [hd] at hv; simp [pyIsStr] at hv
    | float q => rw [hd] at hv; simp [pyIsStr] at hv
    | none => rw [hd] at hv; simp [pyIsStr] at hv

/-! ## Claim C1: keyword filtering -/

/-- C1 counterexample: with an empty keyword list, `filter_vacancies`
does not return the input unchanged — Python's `any` over no conditions
is false, so every entry is filtered out. -/
theorem claim1_empty_keywords_cex :
    filter_vacancies [entPython] [] = Except.ok []
    ∧ filter_vacancies [entPython] [] ≠ Except.ok [entPython] := by
  constructor
  · rfl
  · intro hc
    have h1 : filter_vacancies [entPython] [] = Except.ok [] := rfl
    rw [h1] at hc
    exact absurd (Except.ok.inj hc) (by decide)

/-- C1 (amended): for a non-empty keyword list over entries with string
descriptions, `filter_vacancies` keeps an entry iff its lowercased
description contains at least one lowercased keyword as a substring; an
empty keyword list filters out every entry, returning the empty list
rather than the input unchanged. -/
theorem claim1_filter_keywords (l : List Entry) (ws : List String)
    (hw : ws ≠ []) (h : ∀ e ∈ l, pyIsStr e.description = true) :
    filter_vacancies l ws = Except.ok (l.filter (fun e =>
      ws.any (fun word =>
        strHasSub (pyLowerStr (pyStrVal e.description)) (pyLowerStr word))))
    ∧ filter_vacancies l [] = Except.ok [] := by
  cases ws with
  | nil => exact absurd rfl hw
  | cons w ws2 => exact ⟨filter_vacancies_cons_sem w ws2 l h, filter_vacancies_nil_words l⟩

/-- C1 witness: the keyword "python" keeps the entry whose description is
"Python developer" (case-insensitively). -/
theorem claim1_filter_keywords_witness :
    filter_vacancies [entPython] ["python"] = Except.ok [entPython] := by
  have h := claim1_filter_keywords [entPython] ["python"] (by decide) (by decide)
  rw [h.1]
  rfl

/-! ## Claim C2: defaults in cast_to_object_list -/

/-- C2 counterexample: a raw item with no salary key is cast to a record
whose salary is the number 0, not the "unspecified" sentinel. -/
theorem claim2_missing_salary_cex :
    cast_to_object_list [rawNoSalaryNoDescr] =
      Except.ok [⟨PyVal.str "n", PyVal.str "l", PyVal.int 0, PyVal.str "", PyVal.none⟩]
    ∧ PyVal.int 0 ≠ salaryNotSpecified := ⟨rfl, by decide⟩

/-- C2 (amended): `cast_to_object_list` defaults a missing description to
empty text, but defaults a missing salary to the number 0 (the
`.get("salary", 0)` default), not to the "unspecified" sentinel. -/
theorem claim2_cast_defaults (name link id : Option PyVal) :
    cast_to_object_list [⟨name, link, Option.none, Option.none, id⟩] =
      Except.ok [⟨name.getD PyVal.none, link.getD PyVal.none, PyVal.int 0, PyVal.str "",
        id.getD PyVal.none⟩] := by
  rfl

/-! ## Claim C3: descending sort with the sentinel present -/

/-- C3: sorting entries whose salary keys mix ints with the
"unspecified" sentinel string raises TypeError (int and str are not
comparable in Python 3), so on salaries [50000, sentinel, 90000, 50000]
the code crashes instead of producing the claimed order. -/
theorem claim3_sort_mixed_raises :
    sort_vacancies [entS1, entSU, entS3, entS4] = Except.error PyError.typeError := by
  rfl

/-! ## Claim C4: top-N truncation -/

/-- C4 counterexample: at n = 0, `get_top_vacancies` returns the empty
list, while the claimed behaviour (`top_n_claimed`, n must be positive)
demands a ValidationError. -/
theorem claim4_no_validation_cex :
    get_top_vacancies [entS1, entSU, entS3] 0 = []
    ∧ top_n_claimed [entS1, entSU, entS3] 0 =
        Except.error (PyError.valueError "Количество вакансий должно быть положительным.") :=
  ⟨rfl, rfl⟩

/-- C4 (amended): `get_top_vacancies` performs no validation and raises
no error; for every positive n it returns the prefix of length
min(n, number of entries).  Rejection of non-positive counts happens in
the surrounding input loop of `user_interaction`, not here. -/
theorem claim4_top_slice (l : List Entry) (n : Int) (h : 0 < n) :
    get_top_vacancies l n = l.take n.toNat
    ∧ (get_top_vacancies l n).length = min n.toNat l.length := by
  have h0 : 0 ≤ n := le_of_lt h
  constructor
  · simp [get_top_vacancies, pySlice, if_pos h0]
  · simp [get_top_vacancies, pySlice, if_pos h0, List.length_take]

/-- C4 witness: the first two of five entries, and all three of a
three-entry list when ten are requested. -/
theorem claim4_top_slice_witness :
    get_top_vacancies [entS1, entSU, entS3, entS4, entPython] 2 = [entS1, entSU]
    ∧ get_top_vacancies [entS1, entSU, entS3] 10 = [entS1, entSU, entS3] := by
  constructor
  · rw [(claim4_top_slice [entS1, entSU, entS3, entS4, entPython] 2 (by decide)).1]
    rfl
  · rw [(claim4_top_slice [entS1, entSU, entS3] 10 (by decide)).1]
    rfl

/-! ## Claim C5: salary-range filtering -/

/-- C5 counterexample: an entry whose salary is the float 120000.0 is a
numeric value inside the range 100000-150000 (`rangeKeepClaimed`), yet
`get_vacancies_by_salary` excludes it, because the source checks
`isinstance(salary, int)`. -/
theorem claim5_float_excluded_cex :
    get_vacancies_by_salary [entFloatSal] "100000-150000" = Except.ok []
    ∧ rangeKeepClaimed entFloatSal 100000 150000 = true := ⟨rfl, by decide⟩

/-- C5 (amended): an empty range string performs no filtering; a
parseable "min-max" range keeps exactly the entries whose salary is a
Python int with min ≤ salary ≤ max, inclusive at both ends — float
salaries are excluded along with the "unspecified" sentinel. -/
theorem claim5_range_filter (l : List Entry) (s : String) (mn mx : Int)
    (h : pyParseRange s = Option.some (mn, mx)) :
    get_vacancies_by_salary l s = Except.ok (l.filter (fun v => saInRange v mn mx))
    ∧ get_vacancies_by_salary l "" = Except.ok l := by
  constructor
  · have hs : ¬ s = "" := by
      intro he
      have h0 : pyParseRange "" = Option.none := by decide
      rw [he, h0] at h
      simp at h
    simp only [get_vacancies_by_salary, if_neg hs, h]
    rw [foldl_push_filter (fun v => saInRange v mn mx) l []]
    simp
  · rfl

/-- C5 witness: with range "100000-150000", salaries 100000 and 150000
are kept, 99999, 150001 and the sentinel are excluded. -/
theorem claim5_range_filter_witness :
    get_vacancies_by_salary [entB1, entB2, entB3, entB4, entB5] "100000-150000" =
      Except.ok [entB1, entB2] := by
  have h := claim5_range_filter [entB1, entB2, entB3, entB4, entB5] "100000-150000"
    100000 150000 (by decide)
  rw [h.1]
  rfl

/-! ## Claim C6: append/query round-trip -/

/-- C6 counterexample: appending a valid record whose id "1" already
occurs in the store and querying by that id returns two entries, not
exactly one. -/
theorem claim6_duplicate_id_cex :
    mkVacancies (PyVal.str "Python Developer") (PyVal.str "https://hh.ru/vacancy/1")
      (PyVal.int 100000) (PyVal.str "d") (PyVal.str "1") = Except.ok recDup
    ∧ get_vacancies (add_vacancy [entDup] recDup) [("id", PyVal.str "1")] =
        [entDup, serializeVacancy recDup] := ⟨rfl, rfl⟩

/-- C6 (amended): append followed by query on the record's id returns
the previously matching entries with the record's serialized form
appended last; when no prior entry's id equals it, the result is exactly
the one serialized record. -/
theorem claim6_roundtrip (store : List Entry) (r : Vacancies) :
    get_vacancies (add_vacancy store r) [("id", r.id)] =
      get_vacancies store [("id", r.id)] ++ [serializeVacancy r]
    ∧ ((∀ v ∈ store, pyEqB (pyGetField v "id") r.id = false) →
        get_vacancies (add_vacancy store r) [("id", r.id)] = [serializeVacancy r]) := by
  have hmatch : matchesCriteria (serializeVacancy r) [("id", r.id)] = true := by
    simp [matchesCriteria, pyGetField, serializeVacancy, pyEqB_refl]
  constructor
  · rw [get_vacancies_eq_filter, get_vacancies_eq_filter, add_vacancy, List.filter_append]
    simp [List.filter_cons, hmatch]
  · intro hnone
    rw [get_vacancies_eq_filter, add_vacancy, List.filter_append]
    have hstore : store.filter (fun v => matchesCriteria v [("id", r.id)]) = [] := by
      rw [List.filter_eq_nil_iff]
      intro v hv
      simp [matchesCriteria, hnone v hv]
    rw [hstore]
    simp [List.filter_cons, hmatch]

/-- C6 witness: on a store without the fresh record's id "7", the
round-trip returns exactly the one serialized record. -/
theorem claim6_roundtrip_witness :
    get_vacancies (add_vacancy [entDup] recFresh) [("id", recFresh.id)] =
      [serializeVacancy recFresh] :=
  (claim6_roundtrip [entDup] recFresh).2 (by decide)

/-! ## Claim C7: query exactness -/

/-- C7 counterexample: a criteria value float 100000.0 matches an entry
whose stored salary is the int 100000 — Python `==` compares int and
float by value, contradicting "no type coercion", although the two
values are distinct. -/
theorem claim7_coercion_cex :
    get_vacancies [entIntSal] [("salary", PyVal.float 100000)] = [entIntSal]
    ∧ PyVal.int 100000 ≠ PyVal.float 100000 := ⟨rfl, by decide⟩

/-- C7 (amended): query returns exactly the entries, in stored order
(a sublist of the store), for which every criteria key's field equals
the expected value under Python equality — exact for strings and None,
no partial/substring match, but int and float compare by numeric value;
empty criteria matches every entry. -/
theorem claim7_query_exact (store : List Entry) (criteria : List (String × PyVal)) :
    get_vacancies store criteria = store.filter (fun v => matchesCriteria v criteria)
    ∧ (∀ v, matchesCriteria v criteria =
        criteria.all (fun kv => pyEqB (pyGetField v kv.1) kv.2))
    ∧ List.Sublist (get_vacancies store criteria) store
    ∧ get_vacancies store [] = store := by
  refine ⟨get_vacancies_eq_filter store criteria,
    fun v => matchesCriteria_eq_all v criteria, ?_, ?_⟩
  · rw [get_vacancies_eq_filter]
    exact List.filter_sublist store
  · rw [get_vacancies_eq_filter]
    simp [matchesCriteria]

/-! ## Claim C8: delete-by-id -/

/-- C8: delete removes exactly the entries whose id equals the given
identifier, preserving the relative order of the rest (the result is the
filtered store, a sublist of it); when no entry has that id the store is
unchanged and no error is raised. -/
theorem claim8_delete (store : List Entry) (vid : PyVal) :
    delete_vacancy store vid = store.filter (fun v => !(pyEqB (pyGetField v "id") vid))
    ∧ List.Sublist (delete_vacancy store vid) store
    ∧ ((∀ v ∈ store, pyEqB (pyGetField v "id") vid = false) →
        delete_vacancy store vid = store) := by
  refine ⟨delete_vacancy_eq_filter store vid, ?_, ?_⟩
  · rw [delete_vacancy_eq_filter]
    exact List.filter_sublist store
  · intro h
    rw [delete_vacancy_eq_filter, List.filter_eq_self]
    intro v hv
    simp [h v hv]

/-- C8 witness: deleting the absent id "7" leaves the store unchanged. -/
theorem claim8_delete_witness :
    delete_vacancy [entDup] (PyVal.str "7") = [entDup] :=
  (claim8_delete [entDup] (PyVal.str "7")).2.2 (by decide)

/-! ## Claim C9: salary validation -/

/-- C9: `validation_data` raises ValueError for every negative numeric
salary and for every salary that is neither numeric nor the
None/empty-string "unspecified" case; every non-negative numeric salary
is accepted unchanged, so record construction succeeds with it. -/
theorem claim9_validation (s : PyVal) :
    (pyIsNumber s = true → pyIsNeg s = true →
      validation_data s = Except.error (PyError.valueError "Зарплата не может быть отрицательной"))
    ∧ (pyIsNumber s = false → pyIsNone s = false → pyEqB s (PyVal.str "") = false →
      validation_data s = Except.error (PyError.valueError "Зарплата должна быть числом"))
    ∧ (pyIsNumber s = true → pyIsNeg s = false →
      ∀ name link description id, mkVacancies name link s description id =
        Except.ok ⟨name, link, s, description, id⟩) := by
  refine ⟨?_, ?_, ?_⟩
  · intro hnum hneg
    cases s <;> simp_all [validation_data, pyIsNumber, pyIsNeg, pyIsNone, pyEqB]
  · intro hnum hnone hempty
    cases s <;> simp_all [validation_data, pyIsNumber, pyIsNone, pyEqB]
  · intro hnum hneg name link description id
    cases s with
    | int n =>
      have hn : ¬ (n < 0) := by simpa [pyIsNeg] using hneg
      simp [mkVacancies, validation_data, pyIsNumber, pyIsNone, pyEqB, pyIsNeg, hn]
    | float q =>
      have hq : ¬ (q < 0) := by simpa [pyIsNeg] using hneg
      simp [mkVacancies, validation_data, pyIsNumber, pyIsNone, pyEqB, pyIsNeg, hq]
    | str a => simp [pyIsNumber] at hnum
    | none => simp [pyIsNumber] at hnum

/-- C9 witness: -1 is rejected as negative, "abc" as non-numeric, and a
record with salary 100000 is constructed with that salary. -/
theorem claim9_validation_witness :
    validation_data (PyVal.int (-1)) =
      Except.error (PyError.valueError "Зарплата не может быть отрицательной")
    ∧ validation_data (PyVal.str "abc") =
      Except.error (PyError.valueError "Зарплата должна быть числом")
    ∧ mkVacancies (PyVal.str "n") (PyVal.str "l") (PyVal.int 100000) (PyVal.str "d")
        PyVal.none =
      Except.ok ⟨PyVal.str "n", PyVal.str "l", PyVal.int 100000, PyVal.str "d", PyVal.none⟩ :=
  ⟨(claim9_validation (PyVal.int (-1))).1 rfl rfl,
   (claim9_validation (PyVal.str "abc")).2.1 rfl rfl rfl,
   (claim9_validation (PyVal.int 100000)).2.2 rfl rfl (PyVal.str "n") (PyVal.str "l")
     (PyVal.str "d") PyVal.none⟩

/-! ## Claim C10: None and empty-string salaries -/

/-- C10: constructing a record with salary None or "" succeeds for every
name, link, description and id, and the resulting salary is the
"unspecified" sentinel, which is a string, not a number. -/
theorem claim10_unspecified_salary (name link description id : PyVal) :
    mkVacancies name link PyVal.none description id =
      Except.ok ⟨name, link, salaryNotSpecified, description, id⟩
    ∧ mkVacancies name link (PyVal.str "") description id =
      Except.ok ⟨name, link, salaryNotSpecified, description, id⟩
    ∧ pyIsNumber salaryNotSpecified = false := ⟨rfl, rfl, rfl⟩
